import Mathlib

/-
Shallow embedding of the render-lifecycle core of `robin_render`
(crates/robin_render/src): the device error capture mailbox
(`DeviceErrorHandler`), the error-policy resolution (`RenderErrorHandler`),
the per-frame state machine (`update_state`), the readiness check
(`RenderPlugin::ready`), the future-resource installation
(`insert_future_resources`) and the extraction swap (`extract`).

Stores (bevy `World`s) are modelled as records of optional typed singleton
resources; panics (`unwrap`, `assert!`) are modelled as `Except.error`;
the mutex-guarded slots are modelled as explicit optional values, with the
lock state carried as a boolean where a non-blocking `try_lock` matters.
-/

namespace RobinRender

/-- Reason a device was lost (wgpu `DeviceLostReason`), opaque beyond its tag. -/
inductive DeviceLostReason where
  | unknown
  | destroyed
deriving DecidableEq, Repr

/-- Error classification (wgpu_types `error::ErrorType`). -/
inductive ErrorType where
  | deviceLost
  | outOfMemory
  | validation
  | internal
deriving DecidableEq, Repr

/-- An uncaptured driver error (wgpu `Error`); the opaque boxed
`ErrorSource` payload is modelled as a `Nat` identity. -/
inductive WgpuError where
  | outOfMemory (source : Nat)
  | validation (source : Nat) (description : String)
  | internal (source : Nat) (description : String)
deriving DecidableEq, Repr

/-- An error encountered during rendering (`RenderError` in error_handler.rs). -/
structure RenderError where
  ty : ErrorType
  description : String
  source : Option Nat
deriving DecidableEq, Repr

/-- The current state of the renderer (`RenderState` in error_handler.rs). -/
inductive RenderState where
  | Initializing
  | Ready
  | Errored (error : RenderError)
  | Reinitializing
deriving DecidableEq, Repr

/-- The two single-slot error cells of `DeviceErrorHandler`; each slot is the
content of its `Arc<Mutex<Option<..>>>` cell. -/
structure DeviceErrorHandler where
  device_lost : Option (DeviceLostReason × String)
  uncaptured : Option WgpuError
deriving DecidableEq, Repr

/-- The panic points of the embedded code: failed `unwrap`s on resource
access and the `assert!` calls. -/
inductive Panic where
  | missingDeviceErrorHandler
  | missingRenderState
  | missingRenderErrorHandler
  | missingFutureRenderResources
  | missingPipelineCache
  | recoverInsertFailed
  | duplicateDeviceLost
deriving DecidableEq, Repr

/-- Body of the closure registered by `DeviceErrorHandler::new` via
`set_device_lost_callback`: `replace` the slot content and `assert!` that the
previous content was `None` (a duplicate notification panics). -/
def device_lost_callback (slot : Option (DeviceLostReason × String))
    (reason : DeviceLostReason) (str : String) :
    Except Panic (Option (DeviceLostReason × String)) :=
  match slot with
  | none => .ok (some (reason, str))
  | some _ => .error .duplicateDeviceLost

/-- Body of the closure registered by `DeviceErrorHandler::new` via
`on_uncaptured_error`: `get_or_insert` keeps an already-pending fault and
only stores the new one into an empty slot. -/
def on_uncaptured_error (slot : Option WgpuError) (e : WgpuError) :
    Option WgpuError :=
  match slot with
  | some old => some old
  | none => some e

/-- Conversion of a drained uncaptured fault performed inside
`DeviceErrorHandler::poll` (the `match error.into_inner()` block). -/
def WgpuError.into_render_error : WgpuError → RenderError
  | .outOfMemory source => { ty := .outOfMemory, description := "", source := some source }
  | .validation source description =>
      { ty := .validation, description := description, source := some source }
  | .internal source description =>
      { ty := .internal, description := description, source := some source }

/-- `DeviceErrorHandler::poll`: `take` the device-lost slot first and return
it if pending (early return leaves the uncaptured slot untouched); otherwise
`take` and convert a pending uncaptured fault; otherwise return nothing.
The result pairs the returned fault with the post-call slot state. -/
def DeviceErrorHandler.poll (h : DeviceErrorHandler) :
    Option RenderError × DeviceErrorHandler :=
  match h.device_lost with
  | some (_, description) =>
      (some { ty := .deviceLost, description := description, source := none },
       { h with device_lost := none })
  | none =>
      match h.uncaptured with
      | some error => (some error.into_render_error, { h with uncaptured := none })
      | none => (none, h)

/-- Modelled from the spec: the `renderer` module (not under src/) bundles
`{Instance, Adapter, Device, Queue, AdapterInfo}`; each handle is modelled by
an opaque `Nat` identity. -/
structure RenderResources where
  render_instance : Nat
  adapter : Nat
  device : Nat
  queue : Nat
  adapter_info : Nat
deriving DecidableEq, Repr

/-- Content of the `FutureRenderResources` wrapper (renderer module, not
under src/): a lock-guarded optional bundle. `locked` is true while the
populating routine holds the mutex. -/
structure FutureRenderResources where
  locked : Bool
  slot : Option RenderResources
deriving DecidableEq, Repr

/-- `FutureRenderResources::default()`: an unlocked, empty slot. -/
def FutureRenderResources.default : FutureRenderResources :=
  { locked := false, slot := none }

/-- Non-blocking `Mutex::try_lock` on the wrapper: fails (returns `none`)
while the populating routine holds the lock, otherwise yields the guarded
slot content. -/
def FutureRenderResources.try_lock (f : FutureRenderResources) :
    Option (Option RenderResources) :=
  if f.locked then none else some f.slot

/-- Modelled from the spec: `RenderCreation` (settings module, not under
src/) is the configuration describing how to (re)create the device;
`create_succeeds` is whether its `create_render` manages to begin
acquisition (a wgpu backend / surface is available). -/
structure RenderCreation where
  create_succeeds : Bool
deriving DecidableEq, Repr

/-- `PipelineCache` (render_resource/pipeline_cache.rs): only the
synchronous-compilation flag is carried. -/
structure PipelineCache where
  synchronous_pipeline_compilation : Bool
deriving DecidableEq, Repr

/-- The simulation-side store, as a record of the typed singleton resources
the lifecycle core touches. The `RenderErrorHandler` resource is passed
alongside (see `update_state`) because its stored function is itself typed
over this record. -/
structure MainWorld where
  futureRenderResources : Option FutureRenderResources
  renderDevice : Option Nat
  renderQueue : Option Nat
deriving DecidableEq, Repr

/-- The render-side store, as a record of the typed singleton resources the
lifecycle core touches. -/
structure RenderWorld where
  deviceErrorHandler : Option DeviceErrorHandler
  renderState : Option RenderState
  pipelineCache : Option PipelineCache
  renderDevice : Option Nat
  renderQueue : Option Nat
deriving DecidableEq, Repr

/-- Resource to indicate renderer behavior upon error (`RenderErrorPolicy`). -/
inductive RenderErrorPolicy where
  | Ignore
  | StopRendering
  | Recover (render_creation : RenderCreation)

/-- The injectable decision function (`RenderErrorHandler` resource): it
receives the error and exclusive access to both worlds, may mutate them, and
returns a policy. The returned worlds model the `&mut World` access. -/
structure RenderErrorHandler where
  f : RenderError → MainWorld → RenderWorld →
      RenderErrorPolicy × MainWorld × RenderWorld

/-- `RenderErrorHandler::default()`: ignore every error, touch nothing. -/
def RenderErrorHandler.default : RenderErrorHandler :=
  ⟨fun _ main_world render_world => (.Ignore, main_world, render_world)⟩

/-- `insert_future_resources` (lib.rs): build a default (empty)
`FutureRenderResources`, ask `render_creation.create_render` to begin
acquisition (modelled from the spec by the `create_succeeds` oracle, the
renderer module being absent from src/), and install the wrapper into the
simulation-side store only on success. -/
def insert_future_resources (render_creation : RenderCreation)
    (main_world : MainWorld) : Bool × MainWorld :=
  let future_resources := FutureRenderResources.default
  if render_creation.create_succeeds then
    (true, { main_world with futureRenderResources := some future_resources })
  else
    (false, main_world)

/-- `RenderErrorHandler::handle`: run the stored policy function, then apply
the returned policy; the `assert!` in the Recover branch is the
`recoverInsertFailed` panic. -/
def RenderErrorHandler.handle (h : RenderErrorHandler) (error : RenderError)
    (main_world : MainWorld) (render_world : RenderWorld) :
    Except Panic (MainWorld × RenderWorld) :=
  match h.f error main_world render_world with
  | (.Ignore, main_world, render_world) =>
      .ok (main_world, { render_world with renderState := some .Ready })
  | (.StopRendering, main_world, render_world) =>
      .ok (main_world, render_world)
  | (.Recover render_creation, main_world, render_world) =>
      match insert_future_resources render_creation main_world with
      | (true, main_world) =>
          .ok (main_world, { render_world with renderState := some .Reinitializing })
      | (false, _) => .error .recoverInsertFailed

/-- Modelled from the spec: `RenderResources::unpack_into` (renderer module,
not under src/) installs the new `RenderDevice`/`RenderQueue` into both
stores, re-registers Device Error Capture on the new device, creates the
`PipelineCache`, and removes the consumed `FutureRenderResources` wrapper
from the simulation-side store. -/
def RenderResources.unpack_into (r : RenderResources) (main_world : MainWorld)
    (render_world : RenderWorld) (synchronous_pipeline_compilation : Bool) :
    MainWorld × RenderWorld :=
  ({ main_world with
      futureRenderResources := none,
      renderDevice := some r.device,
      renderQueue := some r.queue },
   { render_world with
      deviceErrorHandler := some { device_lost := none, uncaptured := none },
      pipelineCache := some { synchronous_pipeline_compilation },
      renderDevice := some r.device,
      renderQueue := some r.queue })

/-- Final step of `update_state` (error_handler.rs): put the removed state
back if the dispatch did not set a new one (`if
render_world.get_resource::<RenderState>().is_none()`), threading through a
panic from the dispatch. -/
def reinsert_state (state : RenderState) :
    Except Panic (MainWorld × RenderWorld) → Except Panic (MainWorld × RenderWorld)
  | .error p => .error p
  | .ok (main_world, render_world) =>
      if render_world.renderState.isNone then
        .ok (main_world, { render_world with renderState := some state })
      else
        .ok (main_world, render_world)

/-- `update_state` (error_handler.rs): the per-frame state-machine pass.
`error_handler` is the `RenderErrorHandler` resource of the simulation-side
store (held alongside the record, and absent from the worlds the stored
function sees, exactly as under `resource_scope`); `startup` is the effect
of `run_schedule(RenderStartup)` on the render-side store. -/
def update_state (error_handler : Option RenderErrorHandler)
    (startup : RenderWorld → RenderWorld)
    (main_world : MainWorld) (render_world : RenderWorld) :
    Except Panic (MainWorld × RenderWorld) :=
  match render_world.deviceErrorHandler with
  | none => .error .missingDeviceErrorHandler
  | some device_error_handler =>
    let polled := device_error_handler.poll
    let render_world := { render_world with deviceErrorHandler := some polled.2 }
    let render_world :=
      match polled.1 with
      | some error => { render_world with renderState := some (.Errored error) }
      | none => render_world
    match render_world.renderState with
    | none => .error .missingRenderState
    | some state =>
      let render_world := { render_world with renderState := none }
      let dispatched : Except Panic (MainWorld × RenderWorld) :=
        match state with
        | .Initializing =>
            let render_world := startup render_world
            .ok (main_world, { render_world with renderState := some .Ready })
        | .Ready => .ok (main_world, render_world)
        | .Errored error =>
            match error_handler with
            | none => .error .missingRenderErrorHandler
            | some handler => handler.handle error main_world render_world
        | .Reinitializing =>
            match main_world.futureRenderResources with
            | none => .error .missingFutureRenderResources
            | some future_render_resources =>
              match future_render_resources.slot with
              | some render_resources =>
                  match render_world.pipelineCache with
                  | none => .error .missingPipelineCache
                  | some pipeline_cache =>
                    let main_world := { main_world with
                      futureRenderResources :=
                        some { future_render_resources with slot := none } }
                    let unpacked := render_resources.unpack_into
                      main_world render_world
                      pipeline_cache.synchronous_pipeline_compilation
                    .ok (unpacked.1,
                         { unpacked.2 with renderState := some .Initializing })
              | none => .ok (main_world, render_world)
      reinsert_state state dispatched

/-- `RenderPlugin::ready` (lib.rs): absent resource means ready; a failed
non-blocking lock falls through `and_then` to `unwrap_or(true)`; a
successful lock reports whether the slot is populated. -/
def RenderPlugin.ready (frr : Option FutureRenderResources) : Bool :=
  (frr.bind fun f => f.try_lock.map Option.isSome).getD true

namespace extract_plugin

/-- A bevy `World` for the extraction swap (extract_plugin.rs): the
`ScratchMainWorld` and `MainWorld` resource slots each hold a nested world,
and all remaining content (entities, other resources) is abstracted as an
opaque `rest` value. -/
inductive World where
  | mk (scratch : Option World) (main : Option World) (rest : Nat)

/-- Content of the `ScratchMainWorld` resource slot. -/
def World.scratch : World → Option World
  | .mk s _ _ => s

/-- Content of the `MainWorld` resource slot. -/
def World.main : World → Option World
  | .mk _ m _ => m

/-- The remaining world content. -/
def World.rest : World → Nat
  | .mk _ _ r => r

/-- Overwrite the `ScratchMainWorld` resource slot (`insert_resource` /
`remove_resource`). -/
def World.setScratch : World → Option World → World
  | .mk _ m r, s => .mk s m r

/-- Overwrite the `MainWorld` resource slot (`insert_resource` /
`remove_resource`). -/
def World.setMain : World → Option World → World
  | .mk s _ r, m => .mk s m r

/-- `extract` (extract_plugin.rs): remove the `ScratchMainWorld` placeholder
(`unwrap` panics if absent, modelled as `none`), `mem::replace` the main
world with the placeholder's inner world, insert the relocated world into
the render world as the `MainWorld` resource, run the extract schedule
(`sched`), then remove `MainWorld` (`unwrap`), swap back and reinstall the
placeholder. -/
def extract (sched : World → World) (main_world render_world : World) :
    Option (World × World) :=
  match main_world.scratch with
  | none => none
  | some scratch_inner =>
    let inserted_world := main_world.setScratch none
    let main_world := scratch_inner
    let render_world := render_world.setMain (some inserted_world)
    let render_world := sched render_world
    match render_world.main with
    | none => none
    | some inserted_world =>
      let render_world := render_world.setMain none
      let scratch_world := main_world
      let main_world := inserted_world
      some (main_world.setScratch (some scratch_world), render_world)

/-- Reading the `MainWorld` slot after writing it yields the written value. -/
theorem World.main_setMain (w : World) (x : Option World) : (w.setMain x).main = x := by
  cases w; rfl

/-- Writing the `MainWorld` slot leaves the `ScratchMainWorld` slot alone. -/
theorem World.scratch_setMain (w : World) (x : Option World) :
    (w.setMain x).scratch = w.scratch := by
  cases w; rfl

end extract_plugin

/-- C2: whenever a device-lost fault is pending, a single `poll` call returns
it (an `Option`, hence at most one fault per call), with the `DeviceLost`
type, ahead of any pending uncaptured fault. -/
theorem poll_device_lost_first (h : DeviceErrorHandler)
    (reason : DeviceLostReason) (description : String)
    (hdl : h.device_lost = some (reason, description)) :
    (h.poll).1 = some { ty := .deviceLost, description := description, source := none } := by
  simp [DeviceErrorHandler.poll, hdl]

theorem poll_device_lost_first_witness :
    ((DeviceErrorHandler.mk (some (.unknown, "lost")) (some (.outOfMemory 0))).poll).1
      = some { ty := .deviceLost, description := "lost", source := none } :=
  poll_device_lost_first ⟨some (.unknown, "lost"), some (.outOfMemory 0)⟩ .unknown "lost" rfl

/-- C3 counterexample: with a device-lost fault and an `OutOfMemory` fault
both pending, the first `poll` returns the device-lost fault but a second
`poll` before any new fault does NOT return none — the uncaptured slot was
not drained by the early return. -/
theorem poll_second_call_cex :
    ((DeviceErrorHandler.mk (some (.destroyed, "gone")) (some (.outOfMemory 7))).poll).1
        = some { ty := .deviceLost, description := "gone", source := none }
    ∧ ¬ (((DeviceErrorHandler.mk (some (.destroyed, "gone"))
            (some (.outOfMemory 7))).poll).2.poll).1 = none := by
  decide

/-- C3 amended: the first `poll` returns the device-lost fault and leaves the
pending uncaptured fault in its slot; the second `poll` returns that
retained uncaptured fault (converted), and only then is the handler fully
drained, a third `poll` returning none. -/
theorem poll_retains_uncaptured (h : DeviceErrorHandler)
    (reason : DeviceLostReason) (description : String) (u : WgpuError)
    (h1 : h.device_lost = some (reason, description)) (h2 : h.uncaptured = some u) :
    (h.poll).1 = some { ty := .deviceLost, description := description, source := none }
    ∧ (h.poll).2.uncaptured = some u
    ∧ ((h.poll).2.poll).1 = some u.into_render_error
    ∧ (((h.poll).2.poll).2.poll).1 = none := by
  obtain ⟨dl, uc⟩ := h
  simp only at h1 h2
  subst h1; subst h2
  simp [DeviceErrorHandler.poll]

theorem poll_retains_uncaptured_witness :
    ((DeviceErrorHandler.mk (some (.unknown, "reset")) (some (.validation 3 "bad"))).poll).1
        = some { ty := .deviceLost, description := "reset", source := none }
    ∧ ((DeviceErrorHandler.mk (some (.unknown, "reset"))
          (some (.validation 3 "bad"))).poll).2.uncaptured = some (.validation 3 "bad")
    ∧ (((DeviceErrorHandler.mk (some (.unknown, "reset"))
          (some (.validation 3 "bad"))).poll).2.poll).1
        = some (WgpuError.validation 3 "bad").into_render_error
    ∧ ((((DeviceErrorHandler.mk (some (.unknown, "reset"))
          (some (.validation 3 "bad"))).poll).2.poll).2.poll).1 = none :=
  poll_retains_uncaptured ⟨some (.unknown, "reset"), some (.validation 3 "bad")⟩
    .unknown "reset" (.validation 3 "bad") rfl rfl

/-- C9: each error cell holds at most one pending fault (it is a single
`Option` slot). A device-lost notification landing on an occupied slot hits
the `assert!` (a contract violation, modelled as a panic), so no continuing
execution sees the first fault replaced; an uncaptured notification landing
on an occupied slot is dropped by `get_or_insert` — the first fault wins and
the duplicate is neither merged nor allowed to replace it. -/
theorem error_slots_first_fault_wins (slot_dl : Option (DeviceLostReason × String))
    (reason : DeviceLostReason) (str : String)
    (slot_u : Option WgpuError) (e : WgpuError) :
    (slot_dl = none → device_lost_callback slot_dl reason str = .ok (some (reason, str)))
    ∧ (slot_dl.isSome = true →
        device_lost_callback slot_dl reason str = .error .duplicateDeviceLost)
    ∧ (slot_u = none → on_uncaptured_error slot_u e = some e)
    ∧ (∀ old, slot_u = some old → on_uncaptured_error slot_u e = some old) := by
  refine ⟨fun h => ?_, fun h => ?_, fun h => ?_, fun old h => ?_⟩ <;>
    subst_eqs <;> first
      | rfl
      | (obtain ⟨p, rfl⟩ := Option.isSome_iff_exists.mp h; rfl)

theorem error_slots_first_fault_wins_witness :
    device_lost_callback (some (.unknown, "first")) .destroyed "second"
        = .error .duplicateDeviceLost
    ∧ on_uncaptured_error (some (.internal 1 "first")) (.outOfMemory 2)
        = some (.internal 1 "first") :=
  ⟨(error_slots_first_fault_wins (some (.unknown, "first")) .destroyed "second"
      (some (.internal 1 "first")) (.outOfMemory 2)).2.1 rfl,
   (error_slots_first_fault_wins (some (.unknown, "first")) .destroyed "second"
      (some (.internal 1 "first")) (.outOfMemory 2)).2.2.2 (.internal 1 "first") rfl⟩

/-- C6 counterexample: when the `FutureRenderResources` resource exists and
the non-blocking lock attempt fails (lock held by the populating routine),
`ready` returns true, not false as the claim states. -/
theorem ready_failed_lock_cex :
    ¬ RenderPlugin.ready (some { locked := true, slot := none }) = false := by
  decide

/-- C6 amended: `ready` returns true exactly when no `FutureRenderResources`
resource exists, or the non-blocking lock attempt fails (population in
progress is treated as ready), or the lock succeeds and finds the slot
populated; it returns false only when the lock succeeds on an empty slot. -/
theorem ready_iff (frr : Option FutureRenderResources) :
    RenderPlugin.ready frr = true ↔
      (frr = none ∨ ∃ f, frr = some f ∧ (f.locked = true ∨ f.slot.isSome = true)) := by
  cases frr with
  | none => simp [RenderPlugin.ready]
  | some f =>
    obtain ⟨l, s⟩ := f
    cases l <;> cases s <;>
      simp [RenderPlugin.ready, FutureRenderResources.try_lock]

/-- C4: when the policy function returns `Recover(config)`, `handle`
installs a fresh empty `FutureRenderResources` into the simulation-side
store and sets the render-side state to `Reinitializing`; if acquisition
setup cannot begin (`insert_future_resources` returns false) the
`assert!` fires — so under the precondition that the policy only requests
recovery it can attempt, the panic branch is unreachable. -/
theorem handle_recover_installs_future (h : RenderErrorHandler) (error : RenderError)
    (main_world main_world' : MainWorld) (render_world render_world' : RenderWorld)
    (render_creation : RenderCreation)
    (hf : h.f error main_world render_world
            = (.Recover render_creation, main_world', render_world')) :
    (render_creation.create_succeeds = true →
      h.handle error main_world render_world =
        .ok ({ main_world' with
                futureRenderResources := some FutureRenderResources.default },
             { render_world' with renderState := some .Reinitializing }))
    ∧ (render_creation.create_succeeds = false →
      h.handle error main_world render_world = .error .recoverInsertFailed) := by
  constructor <;> intro hc <;>
    simp [RenderErrorHandler.handle, hf, insert_future_resources, hc]

theorem handle_recover_installs_future_witness :
    (RenderErrorHandler.mk fun _ m r => (.Recover ⟨true⟩, m, r)).handle
        { ty := .deviceLost, description := "d", source := none }
        ⟨none, none, none⟩ ⟨none, none, none, none, none⟩
      = .ok (⟨some FutureRenderResources.default, none, none⟩,
             ⟨none, some .Reinitializing, none, none, none⟩) :=
  (handle_recover_installs_future ⟨fun _ m r => (.Recover ⟨true⟩, m, r)⟩
    { ty := .deviceLost, description := "d", source := none }
    ⟨none, none, none⟩ ⟨none, none, none⟩
    ⟨none, none, none, none, none⟩ ⟨none, none, none, none, none⟩
    ⟨true⟩ rfl).1 rfl

/-- Whatever the dispatch produced, a non-panicking `reinsert_state` leaves
a `RenderState` in the render-side store. -/
theorem reinsert_state_isSome (state : RenderState)
    (d : Except Panic (MainWorld × RenderWorld))
    (main_world' : MainWorld) (render_world' : RenderWorld)
    (h : reinsert_state state d = .ok (main_world', render_world')) :
    render_world'.renderState.isSome = true := by
  cases d with
  | error p => exact Except.noConfusion h
  | ok pr =>
    obtain ⟨m, r⟩ := pr
    simp only [reinsert_state] at h
    split at h
    · injection h with h1
      injection h1 with h2 h3
      rw [← h3]
      rfl
    · injection h with h1
      injection h1 with h2 h3
      rw [← h3]
      rename_i hcond
      simp only [Option.isNone_iff_eq_none] at hcond
      exact Option.ne_none_iff_isSome.mp hcond

/-- C1: for any installed error handler, any startup schedule and any
contents of the two stores, if the render-side store holds a `RenderState`
before the pass and `update_state` completes (does not panic), the
render-side store again holds exactly one `RenderState` afterwards: the
final reinsertion step guarantees the state is never left absent, in every
dispatch branch, and the store being a typed singleton slot rules out
duplication. -/
theorem update_state_state_invariant (error_handler : Option RenderErrorHandler)
    (startup : RenderWorld → RenderWorld)
    (main_world main_world' : MainWorld) (render_world render_world' : RenderWorld)
    (hpre : render_world.renderState.isSome = true)
    (hok : update_state error_handler startup main_world render_world
            = .ok (main_world', render_world')) :
    render_world'.renderState.isSome = true := by
  unfold update_state at hok
  dsimp only at hok
  repeat' split at hok
  all_goals first
    | exact Except.noConfusion hok
    | exact reinsert_state_isSome _ _ _ _ hok

theorem update_state_state_invariant_witness :
    (RenderWorld.renderState
        ⟨some ⟨none, none⟩, some .Ready, none, none, none⟩).isSome = true :=
  update_state_state_invariant (some RenderErrorHandler.default) id
    ⟨none, none, none⟩ ⟨none, none, none⟩
    ⟨some ⟨none, none⟩, some .Ready, none, none, none⟩
    ⟨some ⟨none, none⟩, some .Ready, none, none, none⟩
    rfl rfl

/-- C8: with a device-lost fault pending, the state `Ready` and the default
error-policy handler installed, one full `update_state` pass drains the
fault, dispatches the resulting `Errored` state to the default policy
(`Ignore`), and leaves the render-side state `Ready` again. -/
theorem device_lost_ignored_returns_ready (startup : RenderWorld → RenderWorld)
    (main_world : MainWorld) (render_world : RenderWorld)
    (deh : DeviceErrorHandler) (reason : DeviceLostReason) (description : String)
    (hdeh : render_world.deviceErrorHandler = some deh)
    (hdl : deh.device_lost = some (reason, description))
    (hstate : render_world.renderState = some .Ready) :
    update_state (some RenderErrorHandler.default) startup main_world render_world
      = .ok (main_world,
             { render_world with
                deviceErrorHandler := some { deh with device_lost := none },
                renderState := some .Ready }) := by
  obtain ⟨odeh, ostate, opc, od, oq⟩ := render_world
  simp only at hdeh hstate
  subst hdeh; subst hstate
  simp [update_state, DeviceErrorHandler.poll, hdl,
    RenderErrorHandler.handle, RenderErrorHandler.default, reinsert_state]

theorem device_lost_ignored_returns_ready_witness :
    update_state (some RenderErrorHandler.default) id
        ⟨none, none, none⟩
        ⟨some ⟨some (.destroyed, "dead"), none⟩, some .Ready, none, none, none⟩
      = .ok (⟨none, none, none⟩,
             ⟨some ⟨none, none⟩, some .Ready, none, none, none⟩) :=
  device_lost_ignored_returns_ready id ⟨none, none, none⟩
    ⟨some ⟨some (.destroyed, "dead"), none⟩, some .Ready, none, none, none⟩
    ⟨some (.destroyed, "dead"), none⟩ .destroyed "dead" rfl rfl rfl

/-- C7: in the `Reinitializing` dispatch branch (no fault pending), if the
`FutureRenderResources` slot is populated, consumption is destructive — the
slot content is taken and unpacked into both stores (new device and queue
handles installed, error capture re-registered, `PipelineCache` recreated),
the wrapper is removed from the simulation-side store, and the state
transitions to `Initializing`; if the slot is not yet populated, both
stores are returned unchanged, the state remaining `Reinitializing`. -/
theorem update_state_reinitializing (error_handler : Option RenderErrorHandler)
    (startup : RenderWorld → RenderWorld)
    (main_world : MainWorld) (render_world : RenderWorld)
    (frr : FutureRenderResources) (pc : PipelineCache)
    (hdeh : render_world.deviceErrorHandler = some ⟨none, none⟩)
    (hstate : render_world.renderState = some .Reinitializing)
    (hfrr : main_world.futureRenderResources = some frr)
    (hpc : render_world.pipelineCache = some pc) :
    (∀ r, frr.slot = some r →
      update_state error_handler startup main_world render_world =
        .ok ({ main_world with
                futureRenderResources := none,
                renderDevice := some r.device,
                renderQueue := some r.queue },
             { render_world with
                deviceErrorHandler := some { device_lost := none, uncaptured := none },
                pipelineCache := some
                  { synchronous_pipeline_compilation :=
                      pc.synchronous_pipeline_compilation },
                renderDevice := some r.device,
                renderQueue := some r.queue,
                renderState := some .Initializing }))
    ∧ (frr.slot = none →
      update_state error_handler startup main_world render_world =
        .ok (main_world, render_world)) := by
  obtain ⟨odeh, ostate, opc, od, oq⟩ := render_world
  obtain ⟨ofrr, omd, omq⟩ := main_world
  simp only at hdeh hstate hfrr hpc
  subst hdeh; subst hstate; subst hfrr; subst hpc
  constructor
  · intro r hslot
    simp [update_state, DeviceErrorHandler.poll, hslot,
      RenderResources.unpack_into, reinsert_state]
  · intro hslot
    simp [update_state, DeviceErrorHandler.poll, hslot, reinsert_state]

theorem update_state_reinitializing_witness :
    update_state (some RenderErrorHandler.default) id
        ⟨some { locked := false, slot := some ⟨1, 2, 3, 4, 5⟩ }, none, none⟩
        ⟨some ⟨none, none⟩, some .Reinitializing,
          some { synchronous_pipeline_compilation := false }, none, none⟩
      = .ok (⟨none, some 3, some 4⟩,
             ⟨some ⟨none, none⟩, some .Initializing,
               some { synchronous_pipeline_compilation := false },
               some 3, some 4⟩) :=
  (update_state_reinitializing (some RenderErrorHandler.default) id
    ⟨some { locked := false, slot := some ⟨1, 2, 3, 4, 5⟩ }, none, none⟩
    ⟨some ⟨none, none⟩, some .Reinitializing,
      some { synchronous_pipeline_compilation := false }, none, none⟩
    { locked := false, slot := some ⟨1, 2, 3, 4, 5⟩ }
    { synchronous_pipeline_compilation := false }
    rfl rfl rfl rfl).1 ⟨1, 2, 3, 4, 5⟩ rfl

/-- C10 counterexample: a call with the `RenderState` resource absent but a
device-lost fault pending does not panic — the poll step inserts an
`Errored` state before the `unwrap`, so `update_state` completes normally
(here ending `Ready` under the default policy), refuting that the unwrap
panics for every call where the resource is absent. -/
theorem update_state_missing_state_cex :
    update_state (some RenderErrorHandler.default) id
        ⟨none, none, none⟩
        ⟨some ⟨some (.unknown, "lost"), none⟩, none, none, none, none⟩
      = .ok (⟨none, none, none⟩,
             ⟨some ⟨none, none⟩, some .Ready, none, none, none⟩) := by
  rfl

/-- C10 amended: `update_state` panics when the `DeviceErrorHandler`
resource is absent from the render-side store; with it present, the unwrap
on `remove_resource::<RenderState>()` panics exactly when the state is
absent AND the poll found no pending fault — a pending fault inserts an
`Errored` state first, so the unwrap succeeds. Callers must still guarantee
the handler resource is present, and the state resource present whenever no
fault may be pending. -/
theorem update_state_missing_resource_panics (error_handler : Option RenderErrorHandler)
    (startup : RenderWorld → RenderWorld)
    (main_world : MainWorld) (render_world : RenderWorld) :
    (render_world.deviceErrorHandler = none →
      update_state error_handler startup main_world render_world
        = .error .missingDeviceErrorHandler)
    ∧ (∀ deh, render_world.deviceErrorHandler = some deh →
        deh.device_lost = none → deh.uncaptured = none →
        render_world.renderState = none →
        update_state error_handler startup main_world render_world
          = .error .missingRenderState) := by
  constructor
  · intro h
    simp [update_state, h]
  · intro deh hdeh h1 h2 hstate
    obtain ⟨dl, uc⟩ := deh
    simp only at h1 h2
    subst h1; subst h2
    simp [update_state, hdeh, DeviceErrorHandler.poll, hstate, reinsert_state]

theorem update_state_missing_resource_panics_witness :
    update_state (some RenderErrorHandler.default) id
        ⟨none, none, none⟩ ⟨none, some .Ready, none, none, none⟩
      = .error .missingDeviceErrorHandler :=
  (update_state_missing_resource_panics (some RenderErrorHandler.default) id
    ⟨none, none, none⟩ ⟨none, some .Ready, none, none, none⟩).1 rfl

/-- C5: the extraction swap is a structural round trip: provided the scratch
placeholder is present at entry and the extract schedule does not mutate the
relocated simulation world (the `MainWorld` resource slot), `extract`
returns the simulation world with exactly its original content — the
placeholder reinstalled for reuse — and the render world no longer holds the
relocated `MainWorld` resource after the call. -/
theorem extract_plugin.extract_round_trip (sched : extract_plugin.World → extract_plugin.World)
    (main_world render_world : extract_plugin.World)
    (hscratch : main_world.scratch.isSome = true)
    (hsched : ∀ w, (sched w).main = w.main) :
    ∃ render_world',
      extract_plugin.extract sched main_world render_world
        = some (main_world, render_world')
      ∧ render_world'.main = none := by
  obtain ⟨s, m, r⟩ := main_world
  obtain ⟨si, rfl⟩ : ∃ si, s = some si := by
    cases s with
    | none => simp [extract_plugin.World.scratch] at hscratch
    | some si => exact ⟨si, rfl⟩
  refine ⟨((sched (render_world.setMain
      (some ((extract_plugin.World.mk (some si) m r).setScratch none)))).setMain none), ?_, ?_⟩
  · unfold extract_plugin.extract
    simp only [extract_plugin.World.scratch, extract_plugin.World.setScratch]
    rw [hsched, extract_plugin.World.main_setMain]
  · exact extract_plugin.World.main_setMain _ _

theorem extract_plugin.extract_round_trip_witness :
    ∃ render_world',
      extract_plugin.extract id
          (.mk (some (.mk none none 0)) none 7) (.mk none none 9)
        = some (.mk (some (.mk none none 0)) none 7, render_world')
      ∧ render_world'.main = none :=
  extract_plugin.extract_round_trip id
    (.mk (some (.mk none none 0)) none 7) (.mk none none 9)
    rfl (fun _ => rfl)

end RobinRender
